import Mathlib

/-!
Shallow embedding of the two Streamlit retrieval-chat scripts of this
repository, streamlit_refer.py and test.py, together with proofs about the
behaviour their spec describes.  Pure fragments of the Python code are
translated into Lean functions; the Streamlit session state is passed
explicitly; Python runtime failures (NameError, calling None) are modelled
with an explicit error type; external library components that the scripts
only call (document loaders, the text splitter, pandas, the chain) are
either taken as parameters or modelled from the spec, as noted on each
definition.
-/

/-- A chat message as stored in st.session_state.messages: a role string and
a content string. -/
structure Msg where
  role : String
  content : String
deriving DecidableEq, Repr

/-- Python runtime errors that the embedded fragments can raise:
an unbound-name error for a given name, and the TypeError raised when the
value None is called like a function. -/
inductive PyErr where
  | nameError (n : String)
  | typeErrorNoneNotCallable
  | otherError (msg : String)
deriving DecidableEq, Repr

/-- The result dictionary returned by a successful ConversationalRetrievalChain
call: the answer, the chat history, and the retrieved source documents.  A
retrieved document is reduced to its source label and page content. -/
structure RetrievedDoc where
  source : String
  pageContent : String
deriving DecidableEq, Repr

/-- Result of one successful chain call. -/
structure ChainResult where
  answer : String
  chatHistory : List Msg
  sourceDocuments : List RetrievedDoc
deriving Repr

/-- The conversation chain held in st.session_state.conversation, abstracted
as a function from the question to either a Python error (remote failure)
or a chain result. -/
abbrev Chain := String → Except PyErr ChainResult

/-- An uploaded file as produced by st.file_uploader: its original name, its
declared MIME type, and its raw content (text form). -/
structure UploadedFile where
  name : String
  type : String
  content : String
deriving DecidableEq, Repr

/-- The part of st.session_state that the Process button handler touches:
the conversation chain and the processComplete flag. -/
structure ProcState where
  conversation : Option Chain
  processComplete : Bool

/-- Observable effects of the Process button handler: a warning shown to the
user, or one of the pipeline stages actually running. -/
inductive ProcEffect where
  | warn (msg : String)
  | loadDocs
  | chunkDocs
  | embedAndIndex
  | buildChain
deriving DecidableEq, Repr

/-- The Process button handler of both scripts (streamlit_refer.py lines
40-53, test.py lines 39-52).  The two guard clauses are translated
literally: an empty API-key string or an empty upload list shows a warning
and stops the script run (st.stop) before anything else happens.  The body
that runs after the guards (get_text, get_text_chunks, get_vectorstore,
get_conversation_chain and the session-state assignments) is abstracted as
the parameter run, since the guarded theorems hold whatever it does. -/
def processAction (run : String → List UploadedFile → ProcState → ProcState × List ProcEffect)
    (openai_api_key : String) (uploaded_files : List UploadedFile) (st : ProcState) :
    ProcState × List ProcEffect :=
  if openai_api_key = "" then
    (st, [ProcEffect.warn "Please add your OpenAI API key to continue."])
  else if uploaded_files = [] then
    (st, [ProcEffect.warn "Please upload at least one document."])
  else
    run openai_api_key uploaded_files st

/-- The names bound at module level in streamlit_refer.py: the imports of
lines 1-17 and the five function definitions.  Note that
get_openai_callback is absent. -/
def streamlitReferNames : List String :=
  ["st", "io", "pd", "tiktoken", "logger",
   "ConversationalRetrievalChain", "ChatOpenAI",
   "PyPDFLoader", "Docx2txtLoader", "UnstructuredPowerPointLoader", "CSVLoader",
   "RecursiveCharacterTextSplitter", "HuggingFaceEmbeddings",
   "ConversationBufferMemory", "FAISS", "Document",
   "StreamlitChatMessageHistory",
   "main", "tiktoken_len", "get_text_from_csv", "get_text",
   "get_text_chunks", "get_vectorstore", "get_conversation_chain"]

/-- The names bound at module level in test.py: the imports of lines 1-16
and the function definitions.  Note that tiktoken is absent while
get_openai_callback is present. -/
def testModuleNames : List String :=
  ["st", "io", "pd", "logger",
   "ConversationalRetrievalChain", "ChatOpenAI",
   "PyPDFLoader", "Docx2txtLoader", "UnstructuredPowerPointLoader",
   "RecursiveCharacterTextSplitter", "HuggingFaceEmbeddings",
   "ConversationBufferMemory", "FAISS", "get_openai_callback",
   "StreamlitChatMessageHistory",
   "main", "get_text_from_csv", "get_text",
   "get_text_chunks", "get_vectorstore", "get_conversation_chain",
   "tiktoken_len"]

/-- Helper: the user message appended for a submitted question. -/
def userMsg (q : String) : Msg := ⟨"user", q⟩

/-- Helper: the assistant message appended for a returned answer. -/
def assistantMsg (a : String) : Msg := ⟨"assistant", a⟩

/-- The chat branch of streamlit_refer.py (lines 66-88), run for one
submitted question.  In order: the user message is appended to
st.session_state.messages; the chain stored in conversation is called
(calling None raises a TypeError, a failing remote call propagates its
error); then the name get_openai_callback is evaluated, which raises a
NameError when it is not bound in the module; only if all of that succeeds
is the assistant message appended.  The returned pair is the final message
list (mutations persist past an error) and the raised error, if any. -/
def chatTurnRefer (conv : Option Chain) (msgs : List Msg) (q : String) :
    List Msg × Option PyErr :=
  let msgs1 := msgs ++ [userMsg q]
  match conv with
  | none => (msgs1, some PyErr.typeErrorNoneNotCallable)
  | some chain =>
    match chain q with
    | Except.error e => (msgs1, some e)
    | Except.ok r =>
      if streamlitReferNames.contains "get_openai_callback" then
        (msgs1 ++ [assistantMsg r.answer], none)
      else
        (msgs1, some (PyErr.nameError "get_openai_callback"))

/-- The chat logic of test.py (lines 57-73), run for one rerun of the
script.  The text input is only shown when processComplete is true; an
empty query string is falsy and does nothing; otherwise the user message is
appended, and the chain is called only when conversation is set (the inner
if guard), appending the assistant message on success. -/
def testChatStep (processComplete : Bool) (conv : Option Chain) (msgs : List Msg)
    (q : String) : List Msg × Option PyErr :=
  if processComplete then
    if q = "" then (msgs, none)
    else
      let msgs1 := msgs ++ [userMsg q]
      match conv with
      | none => (msgs1, none)
      | some chain =>
        match chain q with
        | Except.error e => (msgs1, some e)
        | Except.ok r => (msgs1 ++ [assistantMsg r.answer], none)
  else (msgs, none)

/-- The initial value of st.session_state.messages in test.py (lines 22-23):
a single system greeting message. -/
def testInitialMessages : List Msg :=
  [⟨"system", "안녕하세요! 주어진 문서에 대해 궁금하신 것이 있으면 언제든 물어봐주세요!"⟩]

/-- A concrete chain used to exercise the models on closed inputs. -/
def demoChain : Chain :=
  fun q => Except.ok ⟨String.append "ans:" q, [], []⟩

/-- Split a character list at every occurrence of a separator character;
occurrences are dropped, empty segments are kept. -/
def splitListOnChar (c : Char) : List Char → List (List Char)
  | [] => [[]]
  | a :: as =>
    if a = c then [] :: splitListOnChar c as
    else
      match splitListOnChar c as with
      | [] => [[a]]
      | g :: gs => (a :: g) :: gs

/-- Split a string at every occurrence of a separator character. -/
def splitStringOn (c : Char) (s : String) : List String :=
  (splitListOnChar c s.toList).map (fun l => String.mk l)

/-- A parsed table: the column names of the header row and the data rows,
each a list of cell strings.  Models the pandas DataFrame as far as the two
CSV-to-text functions use it. -/
structure DataFrame where
  header : List String
  rows : List (List String)
deriving DecidableEq, Repr

/-- Models pandas pd.read_csv on simple comma-separated text: the first
line is the header naming the columns, every further non-empty line is a
data row, cells are comma-separated. -/
def read_csv (s : String) : DataFrame :=
  match (splitStringOn '\n' s).filter (fun line => line ≠ "") with
  | [] => ⟨[], []⟩
  | h :: rest => ⟨splitStringOn ',' h, rest.map (fun line => splitStringOn ',' line)⟩

/-- Right-justify a cell string in a field of the given width. -/
def padLeft (w : Nat) (s : String) : String :=
  String.mk (List.replicate (w - s.length) ' ') ++ s

/-- Width of each column: the longest string occurring in that column,
header included. -/
def colWidths (df : DataFrame) : List Nat :=
  (df.header :: df.rows).transpose.map (fun col => (col.map String.length).foldr Nat.max 0)

/-- Models pandas DataFrame.to_string with index=False: the header row
followed by every data row, with each cell right-justified to its column
width, cells separated by one space, rows separated by newlines. -/
def df_to_string_noIndex (df : DataFrame) : String :=
  String.intercalate "\n"
    ((df.header :: df.rows).map (fun row =>
      String.intercalate " " (List.zipWith padLeft (colWidths df) row)))

/-- get_text_from_csv of streamlit_refer.py (lines 95-98): parse the CSV
and serialize the full table to text with df.to_string(index=False). -/
def get_text_from_csv_refer (content : String) : String :=
  df_to_string_noIndex (read_csv content)

/-- get_text_from_csv of test.py (lines 75-78): parse the CSV, cast every
cell to a string, sum each column (pandas sum of strings concatenates the
cells of the column), and join the per-column concatenations with spaces. -/
def get_text_from_csv_test (content : String) : String :=
  let df := read_csv content
  String.intercalate " " (df.rows.transpose.map (fun col => String.join col))

/-- A langchain Document as used by the scripts: page content plus the
source label from its metadata. -/
structure LCDocument where
  pageContent : String
  source : String
deriving DecidableEq, Repr

/-- The external document-parsing loaders (PyPDFLoader, Docx2txtLoader,
UnstructuredPowerPointLoader) that get_text dispatches to, abstracted as
fallible functions from the uploaded file to a list of documents. -/
structure Loaders where
  pdf : UploadedFile → Except PyErr (List LCDocument)
  docx : UploadedFile → Except PyErr (List LCDocument)
  pptx : UploadedFile → Except PyErr (List LCDocument)

/-- The MIME type strings that get_text dispatches on. -/
def pdfMime : String := "application/pdf"

/-- DOCX MIME string of the elif branch. -/
def docxMime : String := "application/vnd.openxmlformats-officedocument.wordprocessingml.document"

/-- PPTX MIME string of the elif branch. -/
def pptxMime : String := "application/vnd.openxmlformats-officedocument.presentationml.presentation"

/-- CSV MIME string of the elif branch. -/
def csvMime : String := "text/csv"

/-- get_text of streamlit_refer.py (lines 100-120): loop over the uploaded
files, dispatch on the declared MIME type, extend the document list with
the loader output for PDF, DOCX and PPTX, append one Document built from
get_text_from_csv for CSV, and silently skip (continue) every other type.
A loader failure propagates as the raised error. -/
def get_text_refer (ld : Loaders) : List UploadedFile → Except PyErr (List LCDocument)
  | [] => Except.ok []
  | d :: rest =>
    if d.type = pdfMime then
      match ld.pdf d with
      | Except.error e => Except.error e
      | Except.ok docs => (get_text_refer ld rest).map (fun tail => docs ++ tail)
    else if d.type = docxMime then
      match ld.docx d with
      | Except.error e => Except.error e
      | Except.ok docs => (get_text_refer ld rest).map (fun tail => docs ++ tail)
    else if d.type = pptxMime then
      match ld.pptx d with
      | Except.error e => Except.error e
      | Except.ok docs => (get_text_refer ld rest).map (fun tail => docs ++ tail)
    else if d.type = csvMime then
      (get_text_refer ld rest).map
        (fun tail => ⟨get_text_from_csv_refer d.content, d.name⟩ :: tail)
    else
      get_text_refer ld rest

/-- tiktoken_len of test.py (lines 133-136): evaluating the body first
resolves the name tiktoken, which raises a NameError when the module never
binds it; only then would the encoder run (abstracted as enc, since the
library encoder is external). -/
def tiktoken_len_test (enc : String → Nat) (text : String) : Except PyErr Nat :=
  if testModuleNames.contains "tiktoken" then Except.ok (enc text)
  else Except.error (PyErr.nameError "tiktoken")

/-- The text splitter call as get_text_chunks configures it: splitting a
non-empty document list invokes the configured length function on the text
it measures, and a raised error propagates out of split_documents; the pure
splitting itself is abstracted as splitter. -/
def measureAll (lengthFn : String → Except PyErr Nat) : List String → Except PyErr (List Nat)
  | [] => Except.ok []
  | d :: ds =>
    match lengthFn d with
    | Except.error e => Except.error e
    | Except.ok n => (measureAll lengthFn ds).map (fun ns => n :: ns)

/-- Measuring every document with the configured length function, then
splitting: an error raised by the length function propagates. -/
def split_documents_measured (lengthFn : String → Except PyErr Nat)
    (splitter : List String → List String) (docs : List String) :
    Except PyErr (List String) :=
  match measureAll lengthFn docs with
  | Except.error e => Except.error e
  | Except.ok _ => Except.ok (splitter docs)

/-- get_text_chunks of test.py (lines 102-109): build the splitter with
chunk_size 900, chunk_overlap 100 and length_function tiktoken_len, then
split the documents. -/
def get_text_chunks_test (enc : String → Nat) (splitter : List String → List String)
    (docs : List String) : Except PyErr (List String) :=
  split_documents_measured (fun t => tiktoken_len_test enc t) splitter docs

/-- Total token length of a chunk: the sum of the token lengths of its
units, for a given token-length measure. -/
def unitsLen (len : α → Nat) (c : List α) : Nat := (c.map len).sum

/-- Modelled from the spec: when the recursive splitter starts a new window
after emitting a chunk, it keeps the longest trailing run of units of the
previous chunk whose token length stays within the configured overlap and
still leaves room for the incoming unit of length lu within the window
size. -/
def keepSuffix (len : α → Nat) (overlap size lu : Nat) : List α → List α
  | [] => []
  | u :: us =>
    if unitsLen len (u :: us) ≤ overlap ∧ unitsLen len (u :: us) + lu ≤ size then u :: us
    else keepSuffix len overlap size lu us

/-- Modelled from the spec: the merge loop of the recursive text splitter
(RecursiveCharacterTextSplitter, external to this repository).  The
indivisible units produced by recursive-descent splitting are packed
greedily into windows of at most size tokens; when a unit no longer fits,
the current window is emitted and the next window starts from the retained
overlap suffix (keepSuffix) followed by the unit.  Each emitted chunk is
paired with the token length of the units it retains from the previous
chunk (0 for the first chunk). -/
def mergeUnitsAux (len : α → Nat) (size overlap : Nat) :
    List α → Nat → List α → List (List α × Nat)
  | cur, ov, [] => if cur.isEmpty then [] else [(cur, ov)]
  | cur, ov, u :: us =>
    if cur.isEmpty then
      mergeUnitsAux len size overlap (cur ++ [u]) ov us
    else if unitsLen len cur + len u ≤ size then
      mergeUnitsAux len size overlap (cur ++ [u]) ov us
    else
      (cur, ov) ::
        mergeUnitsAux len size overlap
          (keepSuffix len overlap size (len u) cur ++ [u])
          (unitsLen len (keepSuffix len overlap size (len u) cur)) us

/-- Modelled from the spec: the chunker over one document, as a list of
indivisible units, returning each chunk together with the token length of
its overlap with the previous chunk. -/
def chunkUnitsWithOv (len : α → Nat) (size overlap : Nat) (units : List α) :
    List (List α × Nat) :=
  mergeUnitsAux len size overlap [] 0 units

/-- Modelled from the spec: the chunks themselves, in order. -/
def chunkUnits (len : α → Nat) (size overlap : Nat) (units : List α) : List (List α) :=
  (chunkUnitsWithOv len size overlap units).map Prod.fst

/-- The chunker as get_text_chunks of streamlit_refer.py (lines 122-129)
configures it: window size 900 tokens, overlap 100 tokens, lengths measured
by the configured token-length function. -/
def get_text_chunks_model (len : α → Nat) (units : List α) : List (List α) :=
  chunkUnits len 900 100 units

/-- The source labels shown in the reference expander after an answer
(streamlit_refer.py lines 83-85, test.py lines 70-73): the loop displays
doc.metadata of every retrieved document, one line per retrieved chunk, in
retrieval order, with no de-duplication. -/
def displayedSources (sourceDocuments : List RetrievedDoc) : List String :=
  sourceDocuments.map (fun d => d.source)

/-- Token length distributes over appending unit lists. -/
theorem unitsLen_append (len : α → Nat) (c d : List α) :
    unitsLen len (c ++ d) = unitsLen len c + unitsLen len d := by
  simp [unitsLen]

/-- The retained suffix never exceeds the configured overlap in tokens. -/
theorem keepSuffix_len_le (len : α → Nat) (overlap size lu : Nat) (c : List α) :
    unitsLen len (keepSuffix len overlap size lu c) ≤ overlap := by
  induction c with
  | nil => simp [keepSuffix, unitsLen]
  | cons u us ih =>
    by_cases h : unitsLen len (u :: us) ≤ overlap ∧ unitsLen len (u :: us) + lu ≤ size
    · rw [keepSuffix, if_pos h]; exact h.1
    · rw [keepSuffix, if_neg h]; exact ih

/-- A non-empty retained suffix leaves room for the incoming unit. -/
theorem keepSuffix_fits (len : α → Nat) (overlap size lu : Nat) (c : List α)
    (hne : keepSuffix len overlap size lu c ≠ []) :
    unitsLen len (keepSuffix len overlap size lu c) + lu ≤ size := by
  induction c with
  | nil => simp [keepSuffix] at hne
  | cons u us ih =>
    by_cases h : unitsLen len (u :: us) ≤ overlap ∧ unitsLen len (u :: us) + lu ≤ size
    · rw [keepSuffix, if_pos h]; exact h.2
    · rw [keepSuffix, if_neg h]
      rw [keepSuffix, if_neg h] at hne
      exact ih hne

/-- The retained units form a trailing segment of the previous chunk. -/
theorem keepSuffix_isSuffix (len : α → Nat) (overlap size lu : Nat) (c : List α) :
    ∃ pre, c = pre ++ keepSuffix len overlap size lu c := by
  induction c with
  | nil => exact ⟨[], rfl⟩
  | cons u us ih =>
    by_cases h : unitsLen len (u :: us) ≤ overlap ∧ unitsLen len (u :: us) + lu ≤ size
    · exact ⟨[], by rw [keepSuffix, if_pos h]; rfl⟩
    · obtain ⟨pre, hp⟩ := ih
      exact ⟨u :: pre, by rw [keepSuffix, if_neg h, List.cons_append, ← hp]⟩

/-- Invariant of the merge loop: every emitted chunk either fits in the
window or is one single oversized unit, and every recorded overlap stays
within the configured overlap. -/
theorem mergeUnitsAux_bounds (len : α → Nat) (size overlap : Nat) (us : List α) :
    ∀ (cur : List α) (ov : Nat),
      (cur ≠ [] → unitsLen len cur ≤ size ∨ ∃ u, cur = [u] ∧ size < len u) →
      ov ≤ overlap →
      ∀ p ∈ mergeUnitsAux len size overlap cur ov us,
        (unitsLen len p.1 ≤ size ∨ ∃ u, p.1 = [u] ∧ size < len u) ∧ p.2 ≤ overlap := by
  induction us with
  | nil =>
    intro cur ov hcur hov p hp
    rw [mergeUnitsAux] at hp
    by_cases hemp : cur.isEmpty
    · rw [if_pos hemp] at hp
      exact absurd hp (List.not_mem_nil p)
    · rw [if_neg hemp] at hp
      have hp2 : p = (cur, ov) := List.mem_singleton.mp hp
      subst hp2
      have hne : cur ≠ [] := fun h => hemp (by simp [h])
      exact ⟨hcur hne, hov⟩
  | cons u us ih =>
    intro cur ov hcur hov p hp
    rw [mergeUnitsAux] at hp
    by_cases hemp : cur.isEmpty
    · rw [if_pos hemp] at hp
      have hcurnil : cur = [] := by
        cases cur with
        | nil => rfl
        | cons a as => simp [List.isEmpty] at hemp
      refine ih (cur ++ [u]) ov ?_ hov p hp
      intro _
      subst hcurnil
      by_cases hu : len u ≤ size
      · left; simpa [unitsLen] using hu
      · right; exact ⟨u, by simp, by omega⟩
    · rw [if_neg hemp] at hp
      by_cases hfit : unitsLen len cur + len u ≤ size
      · rw [if_pos hfit] at hp
        refine ih (cur ++ [u]) ov ?_ hov p hp
        intro _
        left
        rw [unitsLen_append]
        have h1 : unitsLen len [u] = len u := by simp [unitsLen]
        omega
      · rw [if_neg hfit] at hp
        rcases List.mem_cons.mp hp with hp1 | hp1
        · subst hp1
          have hne : cur ≠ [] := fun h => hemp (by simp [h])
          exact ⟨hcur hne, hov⟩
        · refine ih _ _ ?_ (keepSuffix_len_le len overlap size (len u) cur) p hp1
          intro _
          cases hk : keepSuffix len overlap size (len u) cur with
          | nil =>
            by_cases hu : len u ≤ size
            · left; simpa [unitsLen] using hu
            · right; exact ⟨u, by simp, by omega⟩
          | cons k ks =>
            left
            have hfits := keepSuffix_fits len overlap size (len u) cur (by rw [hk]; simp)
            rw [hk] at hfits
            rw [unitsLen_append]
            have h1 : unitsLen len [u] = len u := by simp [unitsLen]
            omega

/-- The first chunk the merge loop emits extends the chunk it starts from
and carries the overlap it starts with. -/
theorem mergeUnitsAux_head (len : α → Nat) (size overlap : Nat) (us : List α) :
    ∀ (cur : List α) (ov : Nat),
      mergeUnitsAux len size overlap cur ov us = [] ∨
      ∃ ext rest, mergeUnitsAux len size overlap cur ov us = (cur ++ ext, ov) :: rest := by
  induction us with
  | nil =>
    intro cur ov
    rw [mergeUnitsAux]
    by_cases hemp : cur.isEmpty
    · rw [if_pos hemp]; exact Or.inl rfl
    · rw [if_neg hemp]; exact Or.inr ⟨[], [], by rw [List.append_nil]⟩
  | cons u us ih =>
    intro cur ov
    rw [mergeUnitsAux]
    by_cases hemp : cur.isEmpty
    · rw [if_pos hemp]
      rcases ih (cur ++ [u]) ov with h | ⟨ext, rest, h⟩
      · exact Or.inl h
      · exact Or.inr ⟨[u] ++ ext, rest, by rw [h, List.append_assoc]⟩
    · rw [if_neg hemp]
      by_cases hfit : unitsLen len cur + len u ≤ size
      · rw [if_pos hfit]
        rcases ih (cur ++ [u]) ov with h | ⟨ext, rest, h⟩
        · exact Or.inl h
        · exact Or.inr ⟨[u] ++ ext, rest, by rw [h, List.append_assoc]⟩
      · rw [if_neg hfit]
        exact Or.inr ⟨[], _, by rw [List.append_nil]⟩

/-- Adjacent chunks of the merge loop share their recorded overlap: the
retained units are a trailing segment of the earlier chunk, a leading
segment of the later chunk, and their token length is the later chunk's
recorded overlap. -/
theorem mergeUnitsAux_chain (len : α → Nat) (size overlap : Nat) (us : List α) :
    ∀ (cur : List α) (ov : Nat),
      List.Chain'
        (fun c1 c2 => ∃ kept pre rest,
          c1.1 = pre ++ kept ∧ c2.1 = kept ++ rest ∧ unitsLen len kept = c2.2)
        (mergeUnitsAux len size overlap cur ov us) := by
  induction us with
  | nil =>
    intro cur ov
    rw [mergeUnitsAux]
    by_cases hemp : cur.isEmpty
    · rw [if_pos hemp]; exact List.chain'_nil
    · rw [if_neg hemp]; exact List.chain'_singleton _
  | cons u us ih =>
    intro cur ov
    rw [mergeUnitsAux]
    by_cases hemp : cur.isEmpty
    · rw [if_pos hemp]; exact ih _ _
    · rw [if_neg hemp]
      by_cases hfit : unitsLen len cur + len u ≤ size
      · rw [if_pos hfit]; exact ih _ _
      · rw [if_neg hfit]
        refine List.Chain'.cons' (ih _ _) ?_
        intro y hy
        rcases mergeUnitsAux_head len size overlap us
            (keepSuffix len overlap size (len u) cur ++ [u])
            (unitsLen len (keepSuffix len overlap size (len u) cur)) with h | ⟨ext, rest, h⟩
        · rw [h] at hy
          simp at hy
        · rw [h] at hy
          simp only [List.head?_cons, Option.mem_def, Option.some_inj] at hy
          subst hy
          obtain ⟨pre, hpre⟩ := keepSuffix_isSuffix len overlap size (len u) cur
          exact ⟨keepSuffix len overlap size (len u) cur, pre, [u] ++ ext, hpre,
            by rw [List.append_assoc], rfl⟩

/-- Claim C1: for every Process action, an empty API-credential string or
an empty uploaded-file list stops processing before any loading, chunking,
embedding or indexing occurs — the result does not depend on the pipeline
body at all — the only effect is one warning reported to the user, the
conversation field is not assigned and processComplete keeps its value, so
in a fresh session (where it is false) it stays false. -/
theorem processAction_blocks
    (run : String → List UploadedFile → ProcState → ProcState × List ProcEffect)
    (openai_api_key : String) (uploaded_files : List UploadedFile) (st : ProcState)
    (h : openai_api_key = "" ∨ uploaded_files = []) :
    (processAction run openai_api_key uploaded_files st).1.conversation = st.conversation ∧
    (processAction run openai_api_key uploaded_files st).1.processComplete =
      st.processComplete ∧
    (∃ w, (processAction run openai_api_key uploaded_files st).2 = [ProcEffect.warn w]) := by
  have hcase :
      processAction run openai_api_key uploaded_files st =
        (st, [ProcEffect.warn "Please add your OpenAI API key to continue."]) ∨
      processAction run openai_api_key uploaded_files st =
        (st, [ProcEffect.warn "Please upload at least one document."]) := by
    rcases h with h | h
    · left; simp [processAction, h]
    · by_cases hk : openai_api_key = ""
      · left; simp [processAction, hk]
      · right; simp [processAction, hk, h]
  rcases hcase with hc | hc <;> rw [hc] <;> exact ⟨rfl, rfl, _, rfl⟩

/-- Witness for C1: empty credential, empty upload list, fresh session
state, and a pipeline body that would build everything if it ran. -/
theorem processAction_blocks_witness :
    (("" : String) = "" ∨ ([] : List UploadedFile) = []) ∧
    ((processAction (fun _ _ _ => (⟨some demoChain, true⟩, [ProcEffect.loadDocs]))
        "" [] ⟨none, false⟩).1.conversation = (⟨none, false⟩ : ProcState).conversation ∧
     (processAction (fun _ _ _ => (⟨some demoChain, true⟩, [ProcEffect.loadDocs]))
        "" [] ⟨none, false⟩).1.processComplete = (⟨none, false⟩ : ProcState).processComplete ∧
     (∃ w, (processAction (fun _ _ _ => (⟨some demoChain, true⟩, [ProcEffect.loadDocs]))
        "" [] ⟨none, false⟩).2 = [ProcEffect.warn w])) :=
  ⟨Or.inl rfl,
   processAction_blocks (fun _ _ _ => (⟨some demoChain, true⟩, [ProcEffect.loadDocs]))
     "" [] ⟨none, false⟩ (Or.inl rfl)⟩

/-- Claim C2: streamlit_refer.py never binds the name get_openai_callback,
so a chat turn whose chain call succeeds raises a NameError after the chain
call: the user message has been appended but no assistant message is; and
on every path (conversation unset, chain failure, chain success) the turn
ends in an error with exactly the user message appended, so no assistant
message is ever appended. -/
theorem chatTurnRefer_nameError (chain : Chain) (msgs : List Msg) (q : String)
    (r : ChainResult) (hc : chain q = Except.ok r) :
    streamlitReferNames.contains "get_openai_callback" = false ∧
    chatTurnRefer (some chain) msgs q =
      (msgs ++ [userMsg q], some (PyErr.nameError "get_openai_callback")) ∧
    (∀ conv : Option Chain, (chatTurnRefer conv msgs q).1 = msgs ++ [userMsg q] ∧
      (chatTurnRefer conv msgs q).2 ≠ none) := by
  have hgo : streamlitReferNames.contains "get_openai_callback" = false := by decide
  have hgo2 : "get_openai_callback" ∉ streamlitReferNames := by decide
  refine ⟨hgo, by simp [chatTurnRefer, hc, hgo2], ?_⟩
  intro conv
  match conv with
  | none => exact ⟨rfl, by simp [chatTurnRefer]⟩
  | some ch =>
    cases hcc : ch q with
    | error e => simp [chatTurnRefer, hcc]
    | ok r2 => simp [chatTurnRefer, hcc, hgo2]

/-- Witness for C2: the demo chain answers every question, yet the turn
raises the NameError and only the user message is appended. -/
theorem chatTurnRefer_nameError_witness :
    demoChain "q" = Except.ok ⟨String.append "ans:" "q", [], []⟩ ∧
    (streamlitReferNames.contains "get_openai_callback" = false ∧
     chatTurnRefer (some demoChain) [] "q" =
       ([] ++ [userMsg "q"], some (PyErr.nameError "get_openai_callback")) ∧
     (∀ conv : Option Chain, (chatTurnRefer conv [] "q").1 = [] ++ [userMsg "q"] ∧
       (chatTurnRefer conv [] "q").2 ≠ none)) :=
  ⟨rfl, chatTurnRefer_nameError demoChain [] "q" ⟨String.append "ans:" "q", [], []⟩ rfl⟩

/-- Claim C3: test.py never imports tiktoken, so tiktoken_len raises a
NameError on every text, and get_text_chunks, which configures it as the
length function of the splitter, fails with that NameError on every
document list whose splitting invokes the length function (every non-empty
list, whatever the pure splitting would produce). -/
theorem get_text_chunks_test_nameError (enc : String → Nat)
    (splitter : List String → List String) (docs : List String) (h : docs ≠ []) :
    testModuleNames.contains "tiktoken" = false ∧
    (∀ text, tiktoken_len_test enc text = Except.error (PyErr.nameError "tiktoken")) ∧
    get_text_chunks_test enc splitter docs = Except.error (PyErr.nameError "tiktoken") := by
  have ht : testModuleNames.contains "tiktoken" = false := by decide
  have ht2 : "tiktoken" ∉ testModuleNames := by decide
  refine ⟨ht, fun text => by simp [tiktoken_len_test, ht2], ?_⟩
  match docs with
  | [] => exact absurd rfl h
  | d :: ds =>
    simp [get_text_chunks_test, split_documents_measured, measureAll, tiktoken_len_test, ht2]

/-- Witness for C3: one single document already fails with the NameError. -/
theorem get_text_chunks_test_nameError_witness :
    (["doc"] : List String) ≠ [] ∧
    (testModuleNames.contains "tiktoken" = false ∧
     (∀ text, tiktoken_len_test (fun _ => 0) text =
       Except.error (PyErr.nameError "tiktoken")) ∧
     get_text_chunks_test (fun _ => 0) (fun l => l) ["doc"] =
       Except.error (PyErr.nameError "tiktoken")) :=
  ⟨by decide, get_text_chunks_test_nameError (fun _ => 0) (fun l => l) ["doc"] (by decide)⟩

/-- Claim C4: for every token-length measure and every list of indivisible
units, each chunk the configured chunker (window 900, overlap 100)
produces has token length at most 900, except when the chunk is one single
indivisible unit whose own token length exceeds 900. -/
theorem chunk_token_length_bounded (len : α → Nat) (units c : List α)
    (hc : c ∈ get_text_chunks_model len units) :
    unitsLen len c ≤ 900 ∨ ∃ u, c = [u] ∧ 900 < len u := by
  rw [get_text_chunks_model, chunkUnits, chunkUnitsWithOv] at hc
  obtain ⟨p, hp, hpc⟩ := List.mem_map.mp hc
  have hb := mergeUnitsAux_bounds len 900 100 units [] 0
    (fun hcontra => absurd rfl hcontra) (Nat.zero_le _) p hp
  exact hpc ▸ hb.1

/-- Witness for C4: three units of 450 tokens produce a first chunk of two
units, 900 tokens in total. -/
theorem chunk_token_length_bounded_witness :
    [450, 450] ∈ get_text_chunks_model id [450, 450, 450] ∧
    (unitsLen id [450, 450] ≤ 900 ∨ ∃ u, [450, 450] = [u] ∧ 900 < id u) :=
  ⟨by decide, chunk_token_length_bounded id [450, 450, 450] [450, 450] (by decide)⟩

/-- Claim C5 counterexample: on one document of three 450-token units the
chunker emits two adjacent chunks whose overlap is 0 tokens, not 100, even
though the pair is interior to a single source document, so adjacent
chunks do not overlap by exactly 100 tokens. -/
theorem chunk_overlap_not_exactly_100 :
    chunkUnitsWithOv id 900 100 [450, 450, 450] = [([450, 450], 0), ([450], 0)] ∧
    ¬ (∀ p ∈ (chunkUnitsWithOv id 900 100 [450, 450, 450]).drop 1, p.2 = 100) := by
  refine ⟨by decide, ?_⟩
  intro hall
  have := hall ([450], 0) (by decide)
  simp at this

/-- Claim C5 (amended): adjacent chunks from one source document overlap
by at most 100 tokens, not exactly 100: every recorded overlap is at most
100, and for each adjacent pair the retained units are a trailing segment
of the earlier chunk and a leading segment of the later chunk whose token
length is exactly the recorded overlap. -/
theorem chunk_overlap_at_most_100 (len : α → Nat) (units : List α) :
    (∀ p ∈ chunkUnitsWithOv len 900 100 units, p.2 ≤ 100) ∧
    List.Chain'
      (fun c1 c2 => ∃ kept pre rest,
        c1.1 = pre ++ kept ∧ c2.1 = kept ++ rest ∧ unitsLen len kept = c2.2)
      (chunkUnitsWithOv len 900 100 units) := by
  constructor
  · intro p hp
    exact (mergeUnitsAux_bounds len 900 100 units [] 0
      (fun hcontra => absurd rfl hcontra) (Nat.zero_le _) p hp).2
  · exact mergeUnitsAux_chain len 900 100 units [] 0

/-- Claim C6: get_text contributes nothing and raises nothing for an
uploaded file whose declared MIME type is not PDF, DOCX, PPTX or CSV:
removing the file from any batch leaves the result unchanged, and a batch
of only unsupported files yields the empty document list without error. -/
theorem get_text_refer_unsupported (ld : Loaders) (xs ys ds : List UploadedFile)
    (d : UploadedFile)
    (h1 : d.type ∉ [pdfMime, docxMime, pptxMime, csvMime])
    (h2 : ∀ e ∈ ds, e.type ∉ [pdfMime, docxMime, pptxMime, csvMime]) :
    get_text_refer ld (xs ++ d :: ys) = get_text_refer ld (xs ++ ys) ∧
    get_text_refer ld ds = Except.ok [] := by
  simp only [List.mem_cons, List.mem_singleton, not_or] at h1
  constructor
  · induction xs with
    | nil =>
      simp only [List.nil_append]
      rw [get_text_refer, if_neg h1.1, if_neg h1.2.1, if_neg h1.2.2.1, if_neg h1.2.2.2.1]
    | cons x xs ih =>
      simp only [List.cons_append]
      rw [get_text_refer]
      conv_rhs => rw [get_text_refer]
      simp only [ih]
  · induction ds with
    | nil => rfl
    | cons e es ih =>
      have he := h2 e (List.mem_cons_self e es)
      simp only [List.mem_cons, List.mem_singleton, not_or] at he
      rw [get_text_refer, if_neg he.1, if_neg he.2.1, if_neg he.2.2.1, if_neg he.2.2.2.1]
      exact ih (fun x hx => h2 x (List.mem_cons_of_mem e hx))

/-- A batch member with an unsupported declared MIME type. -/
def unsupportedTxt : UploadedFile := ⟨"notes.txt", "text/plain", "hello"⟩

/-- Loaders that succeed with no documents, for closed evaluations. -/
def trivialLoaders : Loaders :=
  ⟨fun _ => Except.ok [], fun _ => Except.ok [], fun _ => Except.ok []⟩

/-- Witness for C6: a plain-text upload is skipped and an all-unsupported
batch yields the empty list. -/
theorem get_text_refer_unsupported_witness :
    (unsupportedTxt.type ∉ [pdfMime, docxMime, pptxMime, csvMime]) ∧
    (get_text_refer trivialLoaders ([] ++ unsupportedTxt :: []) =
       get_text_refer trivialLoaders ([] ++ []) ∧
     get_text_refer trivialLoaders [unsupportedTxt] = Except.ok []) :=
  ⟨by decide,
   get_text_refer_unsupported trivialLoaders [] [] [unsupportedTxt] unsupportedTxt
     (by decide) (by decide)⟩

/-- Claim C7 counterexample: in streamlit_refer.py, a question submitted
before any successful Process (conversation still None) does not yield an
empty result: the turn raises the TypeError from calling None and ends in
an error. -/
theorem noIndex_query_errors :
    chatTurnRefer none [] "q" = ([userMsg "q"], some PyErr.typeErrorNoneNotCallable) ∧
    (chatTurnRefer none [] "q").2 ≠ none := by
  exact ⟨rfl, by decide⟩

/-- Claim C7 (amended): a query issued when no index has been built never
returns an empty search result: in streamlit_refer.py the turn raises a
TypeError because the None conversation is called, and in test.py the chat
path is gated on processComplete, so the query is not processed at all and
the messages are unchanged. -/
theorem noIndex_query_behavior (msgs : List Msg) (q : String) :
    (chatTurnRefer none msgs q).2 = some PyErr.typeErrorNoneNotCallable ∧
    (∀ conv : Option Chain, testChatStep false conv msgs q = (msgs, none)) :=
  ⟨rfl, fun _ => rfl⟩

/-- Claim C8 counterexample: in test.py the transcript starts with the
initial system greeting (lines 22-23), so after two asks that both
succeed it holds five entries, not four. -/
theorem transcript_after_two_asks_not_four :
    (testChatStep true (some demoChain) testInitialMessages "q1").2 = none ∧
    (testChatStep true (some demoChain)
      (testChatStep true (some demoChain) testInitialMessages "q1").1 "q2").2 = none ∧
    (testChatStep true (some demoChain)
      (testChatStep true (some demoChain) testInitialMessages "q1").1 "q2").1.length = 5 ∧
    (testChatStep true (some demoChain)
      (testChatStep true (some demoChain) testInitialMessages "q1").1 "q2").1.length ≠ 4 := by
  refine ⟨rfl, rfl, rfl, by decide⟩

/-- Claim C8 (amended): starting from the initial transcript of test.py
(the system greeting), two asks that both return answers leave a
transcript of exactly five entries: the greeting followed by user,
assistant, user, assistant in call order; and each ask only appends to the
transcript it received. -/
theorem transcript_after_two_asks (chain : Chain) (q1 q2 : String)
    (r1 r2 : ChainResult) (hq1 : q1 ≠ "") (hq2 : q2 ≠ "")
    (h1 : chain q1 = Except.ok r1) (h2 : chain q2 = Except.ok r2) :
    (testChatStep true (some chain) testInitialMessages q1).2 = none ∧
    (testChatStep true (some chain)
      (testChatStep true (some chain) testInitialMessages q1).1 q2).2 = none ∧
    (testChatStep true (some chain)
      (testChatStep true (some chain) testInitialMessages q1).1 q2).1 =
      testInitialMessages ++
        [userMsg q1, assistantMsg r1.answer, userMsg q2, assistantMsg r2.answer] ∧
    (∃ t, (testChatStep true (some chain) testInitialMessages q1).1 =
      testInitialMessages ++ t) ∧
    (∃ t, (testChatStep true (some chain)
      (testChatStep true (some chain) testInitialMessages q1).1 q2).1 =
      (testChatStep true (some chain) testInitialMessages q1).1 ++ t) := by
  have e1 : testChatStep true (some chain) testInitialMessages q1 =
      (testInitialMessages ++ [userMsg q1, assistantMsg r1.answer], none) := by
    simp [testChatStep, hq1, h1]
  have e2 : testChatStep true (some chain)
      (testInitialMessages ++ [userMsg q1, assistantMsg r1.answer]) q2 =
      (testInitialMessages ++
        [userMsg q1, assistantMsg r1.answer, userMsg q2, assistantMsg r2.answer], none) := by
    simp [testChatStep, hq2, h2]
  refine ⟨by simp [e1], by simp [e1, e2], by simp [e1, e2],
    ⟨[userMsg q1, assistantMsg r1.answer], by simp [e1]⟩,
    ⟨[userMsg q2, assistantMsg r2.answer], by simp [e1, e2]⟩⟩

/-- Witness for C8 (amended): the demo chain answers both questions and
the transcript is the greeting plus the four turn entries. -/
theorem transcript_after_two_asks_witness :
    ("q1" : String) ≠ "" ∧ ("q2" : String) ≠ "" ∧
    ((testChatStep true (some demoChain) testInitialMessages "q1").2 = none ∧
     (testChatStep true (some demoChain)
       (testChatStep true (some demoChain) testInitialMessages "q1").1 "q2").2 = none ∧
     (testChatStep true (some demoChain)
       (testChatStep true (some demoChain) testInitialMessages "q1").1 "q2").1 =
       testInitialMessages ++
         [userMsg "q1", assistantMsg (String.append "ans:" "q1"),
          userMsg "q2", assistantMsg (String.append "ans:" "q2")] ∧
     (∃ t, (testChatStep true (some demoChain) testInitialMessages "q1").1 =
       testInitialMessages ++ t) ∧
     (∃ t, (testChatStep true (some demoChain)
       (testChatStep true (some demoChain) testInitialMessages "q1").1 "q2").1 =
       (testChatStep true (some demoChain) testInitialMessages "q1").1 ++ t)) :=
  ⟨by decide, by decide,
   transcript_after_two_asks demoChain "q1" "q2"
     ⟨String.append "ans:" "q1", [], []⟩ ⟨String.append "ans:" "q2", [], []⟩
     (by decide) (by decide) rfl rfl⟩

/-- Claim C9: the CSV-to-text variants of the two scripts are not
equivalent: on the well-formed CSV with header a,b and data row 1,2, the
full-table serialization of streamlit_refer.py keeps the header and the
line structure, while the column-sum variant of test.py produces only the
concatenated data cells, and the two outputs differ. -/
theorem csv_variants_inequivalent :
    get_text_from_csv_refer "a,b\n1,2" = "a b\n1 2" ∧
    get_text_from_csv_test "a,b\n1,2" = "1 2" ∧
    get_text_from_csv_refer "a,b\n1,2" ≠ get_text_from_csv_test "a,b\n1,2" :=
  ⟨by decide, by decide, by decide⟩

/-- Claim C10 counterexample: two retrieved chunks citing the same file
a.pdf are displayed as two identical source labels, so the displayed list
of cited sources is not de-duplicated. -/
theorem displayedSources_not_deduplicated :
    displayedSources [⟨"a.pdf", "x"⟩, ⟨"a.pdf", "y"⟩] = ["a.pdf", "a.pdf"] ∧
    ¬ (displayedSources [⟨"a.pdf", "x"⟩, ⟨"a.pdf", "y"⟩]).Nodup :=
  ⟨rfl, by decide⟩

/-- Claim C10 (amended): the displayed source labels are in retrieval
order with exactly one label per retrieved chunk: the list is as long as
the retrieved document list, the label at each position is the source of
the document at that position, and each label occurs once per chunk citing
it — duplicates are kept, not removed. -/
theorem displayedSources_per_chunk (ds : List RetrievedDoc) (s : String) :
    (displayedSources ds).length = ds.length ∧
    (∀ i : Nat, (displayedSources ds)[i]? = (ds[i]?).map (fun d => d.source)) ∧
    (displayedSources ds).count s = ds.countP (fun d => d.source == s) := by
  refine ⟨by simp [displayedSources], fun i => by simp [displayedSources], ?_⟩
  induction ds with
  | nil => rfl
  | cons d t ih =>
    simp only [displayedSources, List.map_cons, List.count_cons, List.countP_cons]
    simp only [displayedSources] at ih
    rw [ih]
